import Mathlib

/-!
Shallow embedding of the node-open311 client (src/open311.js) and proofs
about its endpoint-resolution, response-normalization and callback logic.

Conventions: the mutable JS client object is modelled as an explicit
`ClientState` record threaded through the functions; JS exceptions become
`Except.error` (for functions whose result is inspected) or an explicit
`crashed` flag (for response handlers); HTTP transport and the XML parser
are black boxes, so a response is modelled by its status code together
with the outcome of parsing its body.
-/

set_option linter.unusedVariables false

/-- The client object: the fields of `Open311` that the library reads or
writes (constructor, `_cacheOptions`, the operation preconditions and the
`_get`/`_post` URL construction). -/
structure ClientState where
  endpoint : Option String
  format : String
  jurisdiction : Option String
  apiKey : Option String
  discovery : Option String
deriving Repr, DecidableEq

/-- Caller-supplied constructor options (the object branch of the
constructor); every field is optional. -/
structure CtorOptions where
  endpoint : Option String := none
  format : Option String := none
  jurisdiction : Option String := none
  apiKey : Option String := none
  discovery : Option String := none
deriving Repr, DecidableEq

/-- The constructor with an options object: `__.extend(this, options)`
followed by `__.defaults(this, \x7bformat: "json"\x7d)`. -/
def Open311.make (options : CtorOptions) : ClientState :=
  { endpoint := options.endpoint
    format := options.format.getD "json"
    jurisdiction := options.jurisdiction
    apiKey := options.apiKey
    discovery := options.discovery }

/-- One entry of the `endpoints` list of a discovery document. -/
structure DiscoveryEndpoint where
  url : String
  specification : String
  type : String
  formats : List String
deriving Repr, DecidableEq

/-- A parsed discovery document. -/
structure DiscoveryDoc where
  endpoints : List DiscoveryEndpoint
deriving Repr, DecidableEq

/-- The `serviceDiscovery` options after `__.extend(defaults, options)`. -/
structure DiscoveryOptions where
  cache : Bool
  type : String
  specification : String
  index : Nat
deriving Repr, DecidableEq

/-- Caller-supplied `serviceDiscovery` options before defaulting. -/
structure DiscoveryOptionsIn where
  cache : Option Bool := none
  type : Option String := none
  specification : Option String := none
  index : Option Nat := none
deriving Repr, DecidableEq

/-- The defaults object of `serviceDiscovery` merged with the caller
options. -/
def discoveryDefaults (options : DiscoveryOptionsIn) : DiscoveryOptions :=
  { cache := options.cache.getD false
    type := options.type.getD "production"
    specification := options.specification.getD "http://wiki.open311.org/GeoReport_v2"
    index := options.index.getD 0 }

/-- The filter inside `_cacheOptions`: endpoints whose `specification` and
`type` both equal the requested values, in document order. -/
def matchingEndpoints (responseData : DiscoveryDoc) (options : DiscoveryOptions) :
    List DiscoveryEndpoint :=
  responseData.endpoints.filter (fun endpoint =>
    endpoint.specification == options.specification && endpoint.type == options.type)

/-- The JS test `url.slice(-1) === "/"`: the last character of the string
is a slash. -/
def sliceNeg1IsSlash (s : String) : Bool :=
  s.data.getLast? == some '/'

/-- The JS expression `"application/json" !== -1`: strict inequality
between a string and a number is always true, whatever the operands. -/
def jsStrictNeqStrNum (s : String) (n : Int) : Bool := true

/-- `__.indexOf(list, value)` where `list` holds strings and `value` is a
boolean: no string element is strictly equal to a boolean, so the scan
always returns -1. -/
def lodashIndexOfStrListBool (l : List String) (b : Bool) : Int := -1

/-- JS truthiness of a number: every number except 0 (and NaN) is truthy;
in particular -1 is truthy. -/
def jsTruthyInt (i : Int) : Bool := i != 0

/-- `_cacheOptions(responseData, options, callback)`. A JS `TypeError`
thrown when the selected index is out of range (reading `.url` of
`undefined`) is modelled by `Except.error`; it is thrown before any
assignment to the client, so no state is returned on that path. -/
def _cacheOptions (st : ClientState) (responseData : DiscoveryDoc)
    (options : DiscoveryOptions) : Except String ClientState :=
  if !options.cache then Except.ok st
  else
    match (matchingEndpoints responseData options)[options.index]? with
    | none => Except.error "TypeError: cannot read property url of undefined"
    | some endpoint =>
      let url := endpoint.url
      let url := if sliceNeg1IsSlash url then url else url ++ "/"
      let format :=
        if jsTruthyInt (lodashIndexOfStrListBool endpoint.formats
            (jsStrictNeqStrNum "application/json" (-1)))
        then "json" else "xml"
      Except.ok { st with endpoint := some url, format := format }

/-- Splitting a character list on the dot character, as
`discovery.split(".")` does (a structural reimplementation, since the
library string split does not reduce definitionally). -/
def splitOnDot : List Char → List (List Char)
  | [] => [[]]
  | c :: rest =>
    let r := splitOnDot rest
    if c = '.' then [] :: r
    else
      match r with
      | [] => [[c]]
      | g :: gs => (c :: g) :: gs

/-- The discovery-URL format heuristic of `serviceDiscovery`: split the
URL on "." and compare the last component with "xml". -/
def discoveryUrlIsXml (url : String) : Bool :=
  (splitOnDot url.data).getLast? == some ("xml".data)

/-- Outcome of handing a body to the parser the format selects: either the
expected document shape, or a parse failure. -/
inductive ParseResult (α : Type) where
  | ok : α → ParseResult α
  | fail : ParseResult α
deriving Repr, DecidableEq

/-- One invocation of the caller-supplied callback: with a truthy error,
or with a null/false error and a result. -/
inductive CbEvent where
  | err : CbEvent
  | ok : CbEvent
deriving Repr, DecidableEq

/-- What one operation does with one transport response: the callback
invocations in order, and whether an exception escaped the handler. -/
structure HandlerTrace where
  calls : List CbEvent
  crashed : Bool
deriving Repr, DecidableEq

/-- `serviceDiscovery(options, callback)` run against one transport
response: the resulting client state and the handler trace. A missing
discovery URL throws synchronously (no request, no callback). On a
non-200 status the callback receives the status code as error. Otherwise
the body is parsed by the parser the discovery-URL suffix selects; on an
XML parse failure the code first calls `callback(err)` and then still
calls `_cacheOptions` with an undefined document, which either calls the
callback a second time (cache false) or throws reading
`responseData.endpoints` (cache true); a JSON parse failure throws before
any callback. -/
def serviceDiscoveryRun (st : ClientState) (optionsIn : DiscoveryOptionsIn)
    (status : Int) (parse : ParseResult DiscoveryDoc) :
    ClientState × HandlerTrace :=
  let options := discoveryDefaults optionsIn
  match st.discovery with
  | none => (st, ⟨[], true⟩)
  | some discovery =>
    if status ≠ 200 then (st, ⟨[CbEvent.err], false⟩)
    else if discoveryUrlIsXml discovery then
      match parse with
      | ParseResult.fail =>
        if options.cache then (st, ⟨[CbEvent.err], true⟩)
        else (st, ⟨[CbEvent.err, CbEvent.ok], false⟩)
      | ParseResult.ok data =>
        match _cacheOptions st data options with
        | Except.error _ => (st, ⟨[], true⟩)
        | Except.ok st2 => (st2, ⟨[CbEvent.ok], false⟩)
    else
      match parse with
      | ParseResult.fail => (st, ⟨[], true⟩)
      | ParseResult.ok data =>
        match _cacheOptions st data options with
        | Except.error _ => (st, ⟨[], true⟩)
        | Except.ok st2 => (st2, ⟨[CbEvent.ok], false⟩)

/-- The endpoint configuration-error message thrown by the operations
that require `endpoint`. -/
def endpointErrorMsg : String :=
  "You must set set an endpoint URL in your Open311(\x7bendpoint: <URL>\x7d) object"

/-- The discovery configuration-error message of `serviceDiscovery`. -/
def discoveryErrorMsg : String :=
  "You must set set a discovery URL in your Open311(\x7bdiscovery: URL\x7d) object"

/-- The API-key configuration-error message of `submitRequest`. -/
def apiKeyErrorMsg : String :=
  "Submitting a Service Request requires an API Key"

/-- How an operation starts: either a synchronous throw before any
network activity, or an HTTP request to the given URL. -/
inductive StartResult where
  | thrown (msg : String)
  | request (url : String)
deriving Repr, DecidableEq

/-- Whether the start was a synchronous throw. -/
def StartResult.isThrown : StartResult → Bool
  | StartResult.thrown _ => true
  | StartResult.request _ => false

/-- The URL built by `_get` and `_post`:
`this.endpoint + path + "." + this.format`. -/
def _getUrl (endpoint : String) (path : String) (format : String) : String :=
  endpoint ++ path ++ "." ++ format

/-- The synchronous phase of `serviceList`: the endpoint guard, then the
GET request to `services`. -/
def serviceListStart (st : ClientState) : StartResult :=
  match st.endpoint with
  | none => StartResult.thrown endpointErrorMsg
  | some endpoint => StartResult.request (_getUrl endpoint "services" st.format)

/-- The synchronous phase of `serviceDefinition(service_code)`. -/
def serviceDefinitionStart (st : ClientState) (service_code : String) : StartResult :=
  match st.endpoint with
  | none => StartResult.thrown endpointErrorMsg
  | some endpoint =>
    StartResult.request (_getUrl endpoint ("services/" ++ service_code) st.format)

/-- The synchronous phase of `token(token)`. -/
def tokenStart (st : ClientState) (token : String) : StartResult :=
  match st.endpoint with
  | none => StartResult.thrown endpointErrorMsg
  | some endpoint =>
    StartResult.request (_getUrl endpoint ("tokens/" ++ token) st.format)

/-- The first positional argument of `serviceRequests` after the
runtime-type disambiguation: absent (or a params object), a single id, or
an array of ids. -/
inductive SRIdArg where
  | absent
  | one (id : String)
  | many (ids : List String)
deriving Repr, DecidableEq

/-- The synchronous phase of `serviceRequests`: the endpoint guard, then
the GET request; a single id selects the `requests/<id>` path, otherwise
the `requests` path is used (an array of ids goes into the
`service_request_id` query parameter instead). -/
def serviceRequestsStart (st : ClientState) (serviceRequestId : SRIdArg) : StartResult :=
  match st.endpoint with
  | none => StartResult.thrown endpointErrorMsg
  | some endpoint =>
    let url := match serviceRequestId with
      | SRIdArg.one id => "requests/" ++ id
      | _ => "requests"
    StartResult.request (_getUrl endpoint url st.format)

/-- The synchronous phase of `submitRequest`: the endpoint guard, then
the API-key guard, then the POST request to `requests`. -/
def submitRequestStart (st : ClientState) : StartResult :=
  match st.endpoint with
  | none => StartResult.thrown endpointErrorMsg
  | some endpoint =>
    match st.apiKey with
    | none => StartResult.thrown apiKeyErrorMsg
    | some _ => StartResult.request (_getUrl endpoint "requests" st.format)

/-- The synchronous phase of `serviceDiscovery`: the discovery-URL guard,
then a plain GET of the discovery URL itself. -/
def serviceDiscoveryStart (st : ClientState) : StartResult :=
  match st.discovery with
  | none => StartResult.thrown discoveryErrorMsg
  | some discovery => StartResult.request discovery

/-- A service entry of a service-list response (the fields the claims
mention; the remaining fields do not affect any modelled behaviour). -/
structure Service where
  service_code : String
  service_name : String
  description : String
deriving Repr, DecidableEq

/-- What xml2js with `explicitArray: false` produces for a repeated child
element: the bare object when the element occurs exactly once, an array
when it occurs several times. -/
inductive XmlVal (α : Type) where
  | single : α → XmlVal α
  | array : List α → XmlVal α
deriving Repr, DecidableEq

/-- The cardinality collapse of xml2js with `explicitArray: false`. -/
def xml2jsElems {α : Type} (items : List α) : XmlVal α :=
  match items with
  | [x] => XmlVal.single x
  | xs => XmlVal.array xs

/-- Whether the decoded value is a sequence (an array) as opposed to a
bare object. -/
def XmlVal.isSequence {α : Type} : XmlVal α → Bool
  | XmlVal.single _ => false
  | XmlVal.array _ => true

/-- The value `serviceList` hands to its callback on the XML path: the
parse of a body whose `<services>` element holds the given `<service>`
children, unwrapped as `data.services.service` with no further
normalization. -/
def serviceListDecodeXml (services : List Service) : XmlVal Service :=
  xml2jsElems services

/-- The parsed XML service-definition document after the unwrap
`data.service_definition` and `data.attributes = data.attributes.attribute`
(attribute entries abstracted as their codes). -/
structure ServiceDefinitionDoc where
  service_code : String
  attributes : XmlVal String
deriving Repr, DecidableEq

/-- The `serviceList` response handler: a transport error is forwarded as
one error call; on the XML path a parse error calls `callback(err)` and
then crashes reading `data.services` of the undefined document; on the
JSON path `JSON.parse` throws before any callback. -/
def serviceListHandle {α : Type} (st : ClientState) (status : Int)
    (parse : ParseResult α) : HandlerTrace :=
  if status ≠ 200 then ⟨[CbEvent.err], false⟩
  else if st.format = "xml" then
    match parse with
    | ParseResult.fail => ⟨[CbEvent.err], true⟩
    | ParseResult.ok _ => ⟨[CbEvent.ok], false⟩
  else
    match parse with
    | ParseResult.fail => ⟨[], true⟩
    | ParseResult.ok _ => ⟨[CbEvent.ok], false⟩

/-- The `serviceDefinition` response handler; same control flow as
`serviceList` with the service-definition unwrap. -/
def serviceDefinitionHandle {α : Type} (st : ClientState) (status : Int)
    (parse : ParseResult α) : HandlerTrace :=
  if status ≠ 200 then ⟨[CbEvent.err], false⟩
  else if st.format = "xml" then
    match parse with
    | ParseResult.fail => ⟨[CbEvent.err], true⟩
    | ParseResult.ok _ => ⟨[CbEvent.ok], false⟩
  else
    match parse with
    | ParseResult.fail => ⟨[], true⟩
    | ParseResult.ok _ => ⟨[CbEvent.ok], false⟩

/-- The `token` response handler; same control flow with the
`data.service_requests.request` unwrap. -/
def tokenHandle {α : Type} (st : ClientState) (status : Int)
    (parse : ParseResult α) : HandlerTrace :=
  if status ≠ 200 then ⟨[CbEvent.err], false⟩
  else if st.format = "xml" then
    match parse with
    | ParseResult.fail => ⟨[CbEvent.err], true⟩
    | ParseResult.ok _ => ⟨[CbEvent.ok], false⟩
  else
    match parse with
    | ParseResult.fail => ⟨[], true⟩
    | ParseResult.ok _ => ⟨[CbEvent.ok], false⟩

/-- The `serviceRequests` response handler; same control flow, with the
unwrap followed by `_convertDates` (which does not throw on the expected
document shapes). -/
def serviceRequestsHandle {α : Type} (st : ClientState) (status : Int)
    (parse : ParseResult α) : HandlerTrace :=
  if status ≠ 200 then ⟨[CbEvent.err], false⟩
  else if st.format = "xml" then
    match parse with
    | ParseResult.fail => ⟨[CbEvent.err], true⟩
    | ParseResult.ok _ => ⟨[CbEvent.ok], false⟩
  else
    match parse with
    | ParseResult.fail => ⟨[], true⟩
    | ParseResult.ok _ => ⟨[CbEvent.ok], false⟩

/-- The `submitRequest` response handler: `_post` reports any status of
300 or above as an error (one error call); on the XML path a parse error
is only logged with `console.error` and the handler then crashes reading
`resData.service_requests`, so the callback is never invoked; on the JSON
path `JSON.parse` throws before any callback. -/
def submitRequestHandle {α : Type} (st : ClientState) (status : Int)
    (parse : ParseResult α) : HandlerTrace :=
  if status ≥ 300 then ⟨[CbEvent.err], false⟩
  else if st.format = "xml" then
    match parse with
    | ParseResult.fail => ⟨[], true⟩
    | ParseResult.ok _ => ⟨[CbEvent.ok], false⟩
  else
    match parse with
    | ParseResult.fail => ⟨[], true⟩
    | ParseResult.ok _ => ⟨[CbEvent.ok], false⟩

/-- What `_post` hands to the operation callback. -/
inductive PostResult where
  | err (status : Int) (msg : String)
  | ok (body : String)
deriving Repr, DecidableEq

/-- The status check of `_post`: `res.statusCode >= 300` is an error with
the status code in the error slot, otherwise the raw body is passed on
with a false error. -/
def _postHandle (status : Int) (body : String) : PostResult :=
  if status ≥ 300 then
    PostResult.err status
      ("There was an error connecting to the Open311 API: " ++ toString status ++ "; " ++ body)
  else PostResult.ok body

/-- The status check of `_get`: any status other than 200 is an error
(`callback(true, msg)`), otherwise the raw body is passed on. -/
def _getHandle (status : Int) (body : String) : PostResult :=
  if status ≠ 200 then
    PostResult.err 1
      ("There was an error connecting to the Open311 API: " ++ toString status)
  else PostResult.ok body

/-- A value held in one of the three date fields of a service request:
the string the server sent, a JS `Date` built from a string, or the
Invalid Date produced by `new Date(undefined)`. -/
inductive DateVal where
  | str : String → DateVal
  | date : String → DateVal
  | invalidDate : DateVal
deriving Repr, DecidableEq

/-- JS truthiness of an optional field value: a missing field
(`undefined`) is falsy, the empty string is falsy, every other string is
truthy, and every `Date` object (Invalid Date included) is truthy. -/
def jsTruthyOpt : Option DateVal → Bool
  | none => false
  | some (DateVal.str s) => !(s == "")
  | some (DateVal.date _) => true
  | some DateVal.invalidDate => true

/-- `new Date(x)`: a string yields a `Date` carrying that string, a
`Date` is copied, and `undefined` yields an Invalid Date. -/
def jsNewDate : Option DateVal → DateVal
  | some (DateVal.str s) => DateVal.date s
  | some (DateVal.date s) => DateVal.date s
  | some DateVal.invalidDate => DateVal.invalidDate
  | none => DateVal.invalidDate

/-- The three date fields of one service-request entry (the only fields
`_convertDates` touches). -/
structure SRequestDates where
  requested_datetime : Option DateVal
  updated_datetime : Option DateVal
  expected_datetime : Option DateVal
deriving Repr, DecidableEq

/-- The body of `_convertDates` for one entry, with the guards exactly as
written in the source: the second `if` tests `request.requested_datetime`
(not `updated_datetime`) before assigning
`request.updated_datetime = new Date(request.updated_datetime)`. The
sequential in-place mutation is modelled by threading the record. -/
def convertDatesOne (request : SRequestDates) : SRequestDates :=
  let r1 :=
    if jsTruthyOpt request.requested_datetime then
      { request with requested_datetime := some (jsNewDate request.requested_datetime) }
    else request
  let r2 :=
    if jsTruthyOpt r1.requested_datetime then
      { r1 with updated_datetime := some (jsNewDate r1.updated_datetime) }
    else r1
  let r3 :=
    if jsTruthyOpt r2.expected_datetime then
      { r2 with expected_datetime := some (jsNewDate r2.expected_datetime) }
    else r2
  r3

/-- `_convertDates(requestData)` on a list result: `__.each` over the
entries, mutating each in place, and the same list is returned. -/
def _convertDates (requestData : List SRequestDates) : List SRequestDates :=
  requestData.map convertDatesOne

/-- A JS value as far as the submission payload needs: strings, numbers
and nested objects (an object is its property list in insertion order). -/
inductive JVal where
  | str : String → JVal
  | num : Int → JVal
  | obj : List (String × JVal) → JVal

/-- A JS object: its properties in insertion order. -/
abbrev Obj := List (String × JVal)

/-- Property read `o[k]`: the value at the first matching key. -/
def objGet : Obj → String → Option JVal
  | [], _ => none
  | kv :: rest, k => if kv.1 = k then some kv.2 else objGet rest k

/-- Property write `o[k] = v`: replace the value in place if the key
exists, otherwise append the new property. -/
def objSet : Obj → String → JVal → Obj
  | [], k, v => [(k, v)]
  | kv :: rest, k, v => if kv.1 = k then (k, v) :: rest else kv :: objSet rest k v

/-- Property removal `delete o[k]`. -/
def objDelete : Obj → String → Obj
  | [], _ => []
  | kv :: rest, k => if kv.1 = k then objDelete rest k else kv :: objDelete rest k

/-- `__.clone(data, true)`: a deep clone. At the value level the clone is
the same data; its significance is that the mutations of `submitRequest`
are applied to the clone and never to the object the caller passed in. -/
def lodashCloneDeep (o : Obj) : Obj := o

/-- The attribute-flattening loop of `submitRequest`: when
`data.attributes` is an object, each of its properties `(k, v)` is copied
to `data["attribute[" + k + "]"] = v`. -/
def flattenAttributes (data : Obj) : Obj :=
  match objGet data "attributes" with
  | some (JVal.obj attrs) =>
    attrs.foldl (fun d kv => objSet d ("attribute[" ++ kv.1 ++ "]") kv.2) data
  | _ => data

/-- What `submitRequest` transmits and what the caller keeps: the form
POSTed to the server and the caller object after the call. -/
structure SubmitEffect where
  form : Obj
  callerData : Obj

/-- The payload preparation of `submitRequest` on the deep clone: inject
`api_key`, flatten `attributes` into bracket-keyed properties, then
`delete data.attributes`. -/
def submitEffect (apiKey : String) (data : Obj) : SubmitEffect :=
  let cloned := lodashCloneDeep data
  let d1 := objSet cloned "api_key" (JVal.str apiKey)
  let d2 := flattenAttributes d1
  let d3 := objDelete d2 "attributes"
  { form := d3, callerData := data }

/-- The synchronous part of `submitRequest(data, callback)`: the endpoint
guard, the deep clone, the API-key guard, and the payload preparation on
the clone; the prepared form is what reaches `_post`. -/
def submitRequestPrepare (st : ClientState) (data : Obj) : Except String SubmitEffect :=
  match st.endpoint with
  | none => Except.error endpointErrorMsg
  | some _ =>
    match st.apiKey with
    | none => Except.error apiKeyErrorMsg
    | some apiKey => Except.ok (submitEffect apiKey data)

/-- Reading a key just written returns the written value. -/
theorem objGet_objSet_self (o : Obj) (k : String) (v : JVal) :
    objGet (objSet o k v) k = some v := by
  induction o with
  | nil => simp [objSet, objGet]
  | cons kv rest ih =>
    by_cases h : kv.1 = k
    · simp [objSet, h, objGet]
    · simp [objSet, h, objGet, ih]

/-- Writing one key leaves the values of other keys unchanged. -/
theorem objGet_objSet_ne (o : Obj) (k1 k2 : String) (v : JVal) (h : k1 ≠ k2) :
    objGet (objSet o k1 v) k2 = objGet o k2 := by
  induction o with
  | nil => simp [objSet, objGet, h]
  | cons kv rest ih =>
    by_cases h1 : kv.1 = k1
    · have h2 : kv.1 ≠ k2 := by rw [h1]; exact h
      simp [objSet, h1, objGet, h, h2]
    · simp [objSet, h1, objGet, ih]

/-- A deleted key reads as absent. -/
theorem objGet_objDelete_self (o : Obj) (k : String) :
    objGet (objDelete o k) k = none := by
  induction o with
  | nil => simp [objDelete, objGet]
  | cons kv rest ih =>
    by_cases h : kv.1 = k
    · simp [objDelete, h, ih]
    · simp [objDelete, h, objGet, ih]

/-- Deleting one key leaves the values of other keys unchanged. -/
theorem objGet_objDelete_ne (o : Obj) (k1 k2 : String) (h : k1 ≠ k2) :
    objGet (objDelete o k1) k2 = objGet o k2 := by
  induction o with
  | nil => simp [objDelete, objGet]
  | cons kv rest ih =>
    by_cases h1 : kv.1 = k1
    · have h2 : kv.1 ≠ k2 := by rw [h1]; exact h
      simp [objDelete, h1, objGet, h, h2, ih]
    · simp [objDelete, h1, objGet, ih]

/-- A bracket-flattened attribute key is at least 11 characters long, so
it never collides with a shorter key. -/
theorem attrKey_ne (s t : String) (ht : t.length < 11) :
    ("attribute[" ++ s ++ "]") ≠ t := by
  intro he
  have hl : ("attribute[" ++ s ++ "]").length = t.length := by rw [he]
  rw [String.length_append, String.length_append] at hl
  have h10 : ("attribute[" : String).length = 10 := rfl
  have h1 : ("]" : String).length = 1 := rfl
  rw [h10, h1] at hl
  omega

/-- The flattening fold only writes bracket-keyed properties, so any key
shorter than 11 characters reads the same before and after. -/
theorem objGet_foldl_attrSet (l : List (String × JVal)) (o : Obj) (k : String)
    (hk : k.length < 11) :
    objGet (l.foldl (fun d kv => objSet d ("attribute[" ++ kv.1 ++ "]") kv.2) o) k =
      objGet o k := by
  induction l generalizing o with
  | nil => rfl
  | cons kv rest ih =>
    rw [List.foldl_cons, ih, objGet_objSet_ne]
    exact attrKey_ne kv.1 k hk

/-- `flattenAttributes` leaves every key shorter than 11 characters
unchanged. -/
theorem objGet_flattenAttributes (d : Obj) (k : String) (hk : k.length < 11) :
    objGet (flattenAttributes d) k = objGet d k := by
  unfold flattenAttributes
  cases hattr : objGet d "attributes" with
  | none => rfl
  | some v =>
    cases v with
    | str s => rfl
    | num n => rfl
    | obj attrs => exact objGet_foldl_attrSet attrs d k hk

/-- With `cache: false` the function returns immediately with the client
untouched. -/
theorem _cacheOptions_cache_false (st : ClientState) (doc : DiscoveryDoc)
    (options : DiscoveryOptions) (h : options.cache = false) :
    _cacheOptions st doc options = Except.ok st := by
  simp [_cacheOptions, h]

/-- Whether an Except value is a success. -/
def exceptIsOk {ε α : Type} : Except ε α → Bool
  | Except.ok _ => true
  | Except.error _ => false

/-- Appending a slash makes the last character a slash. -/
theorem sliceNeg1IsSlash_append_slash (s : String) :
    sliceNeg1IsSlash (s ++ "/") = true := by
  unfold sliceNeg1IsSlash
  rw [String.data_append]
  have hd : ("/" : String).data = ['/'] := rfl
  rw [hd, List.getLast?_concat]
  rfl

/-- A string whose last character is a slash is nonempty. -/
theorem ne_empty_of_sliceNeg1IsSlash (u : String) (h : sliceNeg1IsSlash u = true) :
    u ≠ "" := by
  intro he
  rw [he] at h
  simp [sliceNeg1IsSlash] at h

/-- A discovery endpoint appearing in a document only as an XML provider:
its formats list does not contain the JSON MIME type. -/
def c1Endpoint : DiscoveryEndpoint :=
  { url := "http://api.city.gov/v2/"
    specification := "http://wiki.open311.org/GeoReport_v2"
    type := "production"
    formats := ["text/xml"] }

/-- A client configured only with a discovery URL. -/
def c1State : ClientState :=
  Open311.make { discovery := some "http://api.city.gov/discovery.json" }

/-- The discovery options requesting caching of the first production
GeoReport v2 candidate. -/
def c1Options : DiscoveryOptions :=
  { cache := true
    type := "production"
    specification := "http://wiki.open311.org/GeoReport_v2"
    index := 0 }

/-- C1: the claim says the cached `format` is "json" iff the selected
candidate advertises the MIME type "application/json", else "xml". The
code tests `__.indexOf(endpoint.formats, "application/json" !== -1)`:
the inner comparison is always `true`, `indexOf` of a boolean in a string
list is always -1, and -1 is truthy, so the code sets `format` to "json"
even for this candidate whose only format is "text/xml" — contradicting
the adjacent source comment ("try to find JSON in the format, otherwise
set format to be XML"). -/
theorem C1_format_always_json :
    (_cacheOptions c1State ⟨[c1Endpoint]⟩ c1Options =
      Except.ok { c1State with endpoint := some "http://api.city.gov/v2/", format := "json" }) ∧
    c1Endpoint.formats.contains "application/json" = false :=
  ⟨rfl, rfl⟩

/-- A client configured with an XML discovery URL. -/
def c2State : ClientState :=
  Open311.make { discovery := some "http://api.city.gov/discovery.xml" }

/-- C2 counterexample: on a 200 response whose XML body fails to parse,
`serviceDiscovery` (default options, so `cache: false`) invokes the
caller callback twice — once with the parse error and then again with a
null error and an undefined result — refuting the claim that the callback
is invoked exactly once for every transport response. -/
theorem C2_callback_twice :
    (serviceDiscoveryRun c2State {} 200 ParseResult.fail).2.calls =
      [CbEvent.err, CbEvent.ok] := rfl

/-- C2 (amended): for every transport response whose body parses
successfully — and, for discovery with `cache: true`, whose candidate
selection succeeds — each public operation invokes its callback exactly
once, either with an error (non-success status) or with a result. -/
theorem C2_callback_once (st : ClientState) (u : String) (status : Int)
    (optionsIn : DiscoveryOptionsIn) (dd : DiscoveryDoc) (sv : XmlVal Service)
    (sdef : ServiceDefinitionDoc) (tk : XmlVal SRequestDates)
    (sr : XmlVal SRequestDates) (sub : XmlVal SRequestDates)
    (hdisc : st.discovery = some u)
    (hsel : (discoveryDefaults optionsIn).cache = true →
      (discoveryDefaults optionsIn).index <
        (matchingEndpoints dd (discoveryDefaults optionsIn)).length) :
    (serviceDiscoveryRun st optionsIn status (ParseResult.ok dd)).2.calls.length = 1 ∧
    (serviceListHandle st status (ParseResult.ok sv)).calls.length = 1 ∧
    (serviceDefinitionHandle st status (ParseResult.ok sdef)).calls.length = 1 ∧
    (tokenHandle st status (ParseResult.ok tk)).calls.length = 1 ∧
    (serviceRequestsHandle st status (ParseResult.ok sr)).calls.length = 1 ∧
    (submitRequestHandle st status (ParseResult.ok sub)).calls.length = 1 := by
  have hco : ∀ e, _cacheOptions st dd (discoveryDefaults optionsIn) ≠ Except.error e := by
    intro e
    by_cases hc : (discoveryDefaults optionsIn).cache = true
    · simp [_cacheOptions, hc, List.getElem?_eq_getElem (hsel hc)]
    · have hc2 : (discoveryDefaults optionsIn).cache = false := by
        cases h : (discoveryDefaults optionsIn).cache
        · rfl
        · exact absurd h hc
      rw [_cacheOptions_cache_false st dd (discoveryDefaults optionsIn) hc2]
      simp
  refine ⟨?_, ?_, ?_, ?_, ?_, ?_⟩
  · simp only [serviceDiscoveryRun, hdisc]
    split
    · rfl
    · cases hres : _cacheOptions st dd (discoveryDefaults optionsIn) with
      | error e => exact absurd hres (hco e)
      | ok st2 => split <;> simp [hres]
  · unfold serviceListHandle
    split
    · rfl
    · split <;> rfl
  · unfold serviceDefinitionHandle
    split
    · rfl
    · split <;> rfl
  · unfold tokenHandle
    split
    · rfl
    · split <;> rfl
  · unfold serviceRequestsHandle
    split
    · rfl
    · split <;> rfl
  · unfold submitRequestHandle
    split
    · rfl
    · split <;> rfl

/-- A fully configured client used to instantiate the amended callback
contract. -/
def c2wState : ClientState :=
  Open311.make { endpoint := some "http://api.city.gov/v2/"
                 discovery := some "http://api.city.gov/discovery.json" }

/-- C2 (amended) witness: the amended contract instantiated at a
concrete client, a 200 status and concrete successfully parsed
documents. -/
theorem C2_callback_once_witness :
    (serviceDiscoveryRun c2wState {} 200 (ParseResult.ok ⟨[]⟩)).2.calls.length = 1 ∧
    (serviceListHandle c2wState 200 (ParseResult.ok (XmlVal.array ([] : List Service)))).calls.length = 1 ∧
    (serviceDefinitionHandle c2wState 200
      (ParseResult.ok (⟨"001", XmlVal.array []⟩ : ServiceDefinitionDoc))).calls.length = 1 ∧
    (tokenHandle c2wState 200
      (ParseResult.ok (XmlVal.array ([] : List SRequestDates)))).calls.length = 1 ∧
    (serviceRequestsHandle c2wState 200
      (ParseResult.ok (XmlVal.array ([] : List SRequestDates)))).calls.length = 1 ∧
    (submitRequestHandle c2wState 200
      (ParseResult.ok (XmlVal.array ([] : List SRequestDates)))).calls.length = 1 :=
  C2_callback_once c2wState "http://api.city.gov/discovery.json" 200 {} ⟨[]⟩
    (XmlVal.array []) ⟨"001", XmlVal.array []⟩ (XmlVal.array []) (XmlVal.array [])
    (XmlVal.array []) rfl (by decide)

/-- C3: a missing required configuration field makes the operation throw
synchronously, before any HTTP request: `endpoint` for `serviceList`,
`serviceDefinition`, `token`, `serviceRequests` and `submitRequest`,
`discovery` for `serviceDiscovery`, and `apiKey` for `submitRequest`.
`StartResult.thrown` carries no request URL, so no network call is made
on these paths. -/
theorem C3_config_errors (st : ClientState) (service_code token : String)
    (arg : SRIdArg) :
    (st.endpoint = none →
      (serviceListStart st).isThrown = true ∧
      (serviceDefinitionStart st service_code).isThrown = true ∧
      (tokenStart st token).isThrown = true ∧
      (serviceRequestsStart st arg).isThrown = true ∧
      (submitRequestStart st).isThrown = true) ∧
    (st.discovery = none → (serviceDiscoveryStart st).isThrown = true) ∧
    (st.apiKey = none → (submitRequestStart st).isThrown = true) := by
  refine ⟨fun h => ?_, fun h => ?_, fun h => ?_⟩
  · simp [serviceListStart, serviceDefinitionStart, tokenStart, serviceRequestsStart,
      submitRequestStart, h, StartResult.isThrown]
  · simp [serviceDiscoveryStart, h, StartResult.isThrown]
  · cases he : st.endpoint with
    | none => simp [submitRequestStart, he, StartResult.isThrown]
    | some ep => simp [submitRequestStart, he, h, StartResult.isThrown]

/-- C3 witness: a client constructed with no configuration at all throws
on every operation. -/
theorem C3_config_errors_witness :
    (serviceListStart (Open311.make {})).isThrown = true ∧
    (serviceDefinitionStart (Open311.make {}) "001").isThrown = true ∧
    (tokenStart (Open311.make {}) "12345").isThrown = true ∧
    (serviceRequestsStart (Open311.make {}) SRIdArg.absent).isThrown = true ∧
    (submitRequestStart (Open311.make {})).isThrown = true ∧
    (serviceDiscoveryStart (Open311.make {})).isThrown = true := by
  have h := C3_config_errors (Open311.make {}) "001" "12345" SRIdArg.absent
  exact ⟨(h.1 rfl).1, (h.1 rfl).2.1, (h.1 rfl).2.2.1, (h.1 rfl).2.2.2.1,
    (h.1 rfl).2.2.2.2, h.2.1 rfl⟩

/-- A client constructed with a caller-supplied endpoint that has no
trailing slash. -/
def c4State : ClientState :=
  Open311.make { endpoint := some "http://example.com/api" }

/-- C4 counterexample: a caller-supplied endpoint is used by `_get`
exactly as given — here `serviceList` issues a GET whose base endpoint
does not end in "/" (producing the mangled URL
"http://example.com/apiservices.json"), refuting the claim that the
endpoint ends in "/" at the moment of every transport call. -/
theorem C4_counterexample :
    c4State.endpoint = some "http://example.com/api" ∧
    sliceNeg1IsSlash "http://example.com/api" = false ∧
    serviceListStart c4State =
      StartResult.request "http://example.com/apiservices.json" :=
  ⟨rfl, rfl, rfl⟩

/-- C4 (amended): an endpoint stored by discovery caching always ends in
"/" (and is nonempty); only the Endpoint Resolver guarantees this — a
caller-supplied endpoint is used verbatim and need not end in "/". -/
theorem C4_amended (st st2 : ClientState) (doc : DiscoveryDoc)
    (options : DiscoveryOptions) (hc : options.cache = true)
    (h : _cacheOptions st doc options = Except.ok st2) :
    st2.endpoint ≠ none ∧ sliceNeg1IsSlash (st2.endpoint.getD "") = true ∧
    st2.endpoint.getD "" ≠ "" := by
  rw [_cacheOptions, hc] at h
  simp only [Bool.not_true, Bool.false_eq_true, if_false] at h
  cases hm : (matchingEndpoints doc options)[options.index]? with
  | none => rw [hm] at h; exact absurd h (by simp)
  | some ep =>
    rw [hm] at h
    have h2 : st2 = { st with
        endpoint := some (if sliceNeg1IsSlash ep.url then ep.url else ep.url ++ "/")
        format := if jsTruthyInt (lodashIndexOfStrListBool ep.formats
            (jsStrictNeqStrNum "application/json" (-1))) then "json" else "xml" } := by
      cases h
      rfl
    subst h2
    have hslash : sliceNeg1IsSlash
        (if sliceNeg1IsSlash ep.url then ep.url else ep.url ++ "/") = true := by
      by_cases hsl : sliceNeg1IsSlash ep.url
      · simp [hsl]
      · simp only [hsl, if_false]
        exact sliceNeg1IsSlash_append_slash ep.url
    refine ⟨by simp, hslash, ?_⟩
    exact ne_empty_of_sliceNeg1IsSlash _ hslash

/-- A discovery document with one matching production candidate whose
URL has no trailing slash. -/
def c4Doc : DiscoveryDoc :=
  ⟨[{ url := "http://api.city.gov/v2"
      specification := "http://wiki.open311.org/GeoReport_v2"
      type := "production"
      formats := ["application/json"] }]⟩

/-- The client state produced by caching the candidate of `c4Doc` into
`c1State`. -/
def c4Cached : ClientState :=
  { endpoint := some "http://api.city.gov/v2/"
    format := "json"
    jurisdiction := none
    apiKey := none
    discovery := some "http://api.city.gov/discovery.json" }

/-- C4 (amended) witness: caching the concrete candidate above stores an
endpoint ending in "/". -/
theorem C4_amended_witness :
    c4Cached.endpoint ≠ none ∧
    sliceNeg1IsSlash (c4Cached.endpoint.getD "") = true ∧
    c4Cached.endpoint.getD "" ≠ "" :=
  C4_amended c1State c4Cached c4Doc c1Options rfl rfl

/-- C5: with `cache: true` and a requested index at or beyond the number
of candidates matching the requested specification and type,
`_cacheOptions` fails (the JS code throws reading `.url` of `undefined`,
a propagated runtime failure) instead of succeeding; run through
`serviceDiscovery` the client state is left untouched and the callback is
never invoked with a result, so no invalid endpoint or format is silently
stored. -/
theorem C5_selection_error (st : ClientState) (u : String) (doc : DiscoveryDoc)
    (optionsIn : DiscoveryOptionsIn)
    (hdisc : st.discovery = some u)
    (hc : (discoveryDefaults optionsIn).cache = true)
    (hn : (matchingEndpoints doc (discoveryDefaults optionsIn)).length ≤
      (discoveryDefaults optionsIn).index) :
    exceptIsOk (_cacheOptions st doc (discoveryDefaults optionsIn)) = false ∧
    (serviceDiscoveryRun st optionsIn 200 (ParseResult.ok doc)).1 = st ∧
    (serviceDiscoveryRun st optionsIn 200 (ParseResult.ok doc)).2.crashed = true ∧
    (serviceDiscoveryRun st optionsIn 200 (ParseResult.ok doc)).2.calls = [] := by
  have hget : (matchingEndpoints doc (discoveryDefaults optionsIn))[
      (discoveryDefaults optionsIn).index]? = none := List.getElem?_eq_none hn
  have herr : _cacheOptions st doc (discoveryDefaults optionsIn) =
      Except.error "TypeError: cannot read property url of undefined" := by
    simp [_cacheOptions, hc, hget]
  refine ⟨by rw [herr]; rfl, ?_, ?_, ?_⟩ <;>
    · simp only [serviceDiscoveryRun, hdisc]
      split
    
      · simp_all
      · split <;> simp [herr]

/-- A client configured with a JSON discovery URL, used for the selection
error witness. -/
def c5State : ClientState :=
  Open311.make { discovery := some "http://api.city.gov/discovery.json" }

/-- The discovery options used in the selection-error witness:
caching requested, all other fields defaulted. -/
def c5OptionsIn : DiscoveryOptionsIn := { cache := some true }

/-- C5 witness: an empty discovery document has zero matching candidates,
so the defaulted index 0 is out of range. -/
theorem C5_selection_error_witness :
    exceptIsOk (_cacheOptions c5State ⟨[]⟩ (discoveryDefaults c5OptionsIn)) = false ∧
    (serviceDiscoveryRun c5State c5OptionsIn 200 (ParseResult.ok ⟨[]⟩)).1 = c5State ∧
    (serviceDiscoveryRun c5State c5OptionsIn 200 (ParseResult.ok ⟨[]⟩)).2.crashed = true ∧
    (serviceDiscoveryRun c5State c5OptionsIn 200 (ParseResult.ok ⟨[]⟩)).2.calls = [] :=
  C5_selection_error c5State "http://api.city.gov/discovery.json" ⟨[]⟩ c5OptionsIn
    rfl rfl (by decide)

/-- A first concrete service entry. -/
def svcA : Service :=
  { service_code := "001", service_name := "Pothole", description := "Report a pothole" }

/-- A second concrete service entry. -/
def svcB : Service :=
  { service_code := "002", service_name := "Graffiti", description := "Report graffiti" }

/-- C6 counterexample: with xml2js configured as `explicitArray: false`,
a service-list body holding exactly one `<service>` element decodes to
the bare service object — not a sequence — while a body with two elements
decodes to a sequence; the shapes differ, refuting the claim that the
one-element case yields a one-element sequence of the same shape. -/
theorem C6_counterexample :
    (serviceListDecodeXml [svcA]).isSequence = false ∧
    (serviceListDecodeXml [svcA, svcB]).isSequence = true :=
  ⟨rfl, rfl⟩

/-- C6 (amended): decoding an XML service-list body with exactly one
`<service>` element yields the single service object (not wrapped in a
sequence), while a body with two or more elements yields the sequence of
services; `serviceList` applies no cardinality normalization. -/
theorem C6_amended (s : Service) (l : List Service) (h : 2 ≤ l.length) :
    serviceListDecodeXml [s] = XmlVal.single s ∧
    serviceListDecodeXml l = XmlVal.array l := by
  refine ⟨rfl, ?_⟩
  cases l with
  | nil => simp at h
  | cons a t =>
    cases t with
    | nil => simp at h
    | cons b r => rfl

/-- C6 (amended) witness: the amended statement at one and two concrete
services. -/
theorem C6_amended_witness :
    serviceListDecodeXml [svcA] = XmlVal.single svcA ∧
    serviceListDecodeXml [svcA, svcB] = XmlVal.array [svcA, svcB] :=
  C6_amended svcA [svcA, svcB] (by decide)

/-- C7: the claim says every date field present as a string is converted
and absent fields stay absent. The code guards the `updated_datetime`
assignment with `if (request.requested_datetime)` (a copy-paste slip):
an entry carrying only `updated_datetime` is returned unchanged (the
string is never converted), and an entry carrying only
`requested_datetime` gets an `updated_datetime` field created from
`new Date(undefined)` — an Invalid Date where the claim requires the
field to stay absent. -/
theorem C7_convertDates_bug :
    _convertDates [⟨none, some (DateVal.str "2011-04-23T13:00:00Z"), none⟩] =
      [⟨none, some (DateVal.str "2011-04-23T13:00:00Z"), none⟩] ∧
    _convertDates [⟨some (DateVal.str "2011-04-23T13:00:00Z"), none, none⟩] =
      [⟨some (DateVal.date "2011-04-23T13:00:00Z"), some DateVal.invalidDate, none⟩] :=
  ⟨rfl, rfl⟩

/-- C8 counterexample: a POST response with HTTP status 302 is handed to
the callback as an error carrying the status code, not as a success with
the raw body — `_post` treats every status of 300 and above as an error,
so the claim that 302 is success is false. -/
theorem C8_counterexample :
    _postHandle 302 "Found" =
      PostResult.err 302
        "There was an error connecting to the Open311 API: 302; Found" :=
  rfl

/-- C8 (amended): for every POST made by `submitRequest`, a response
with status at or above 300 — 302 included — is treated as a transport
error with the status code in the error slot, and only statuses strictly
below 300 are treated as success with the raw body. -/
theorem C8_amended (status : Int) (body : String) :
    (300 ≤ status → _postHandle status body =
      PostResult.err status
        ("There was an error connecting to the Open311 API: " ++
          toString status ++ "; " ++ body)) ∧
    (status < 300 → _postHandle status body = PostResult.ok body) := by
  constructor
  · intro h
    simp [_postHandle, h]
  · intro h
    have h2 : ¬(status ≥ 300) := not_le.mpr h
    simp [_postHandle, h2]

/-- C8 (amended) witness: the amended statement at statuses 302 and
200. -/
theorem C8_amended_witness :
    _postHandle 302 "Found" =
      PostResult.err 302
        "There was an error connecting to the Open311 API: 302; Found" ∧
    _postHandle 200 "ok-body" = PostResult.ok "ok-body" :=
  ⟨(C8_amended 302 "Found").1 (by decide), (C8_amended 200 "ok-body").2 (by decide)⟩

/-- C9: with `cache: false` (explicitly, or by the defaulting of an
options object that leaves `cache` unset), `serviceDiscovery` leaves the
client `endpoint` and `format` exactly as they were, for every status
code and every parse outcome of the response body. -/
theorem C9_no_mutation (st : ClientState) (optionsIn : DiscoveryOptionsIn)
    (status : Int) (parse : ParseResult DiscoveryDoc)
    (hc : (discoveryDefaults optionsIn).cache = false) :
    (serviceDiscoveryRun st optionsIn status parse).1.endpoint = st.endpoint ∧
    (serviceDiscoveryRun st optionsIn status parse).1.format = st.format := by
  suffices hs : (serviceDiscoveryRun st optionsIn status parse).1 = st by
    rw [hs]; exact ⟨rfl, rfl⟩
  have hco : ∀ d : DiscoveryDoc,
      _cacheOptions st d (discoveryDefaults optionsIn) = Except.ok st :=
    fun d => _cacheOptions_cache_false st d (discoveryDefaults optionsIn) hc
  unfold serviceDiscoveryRun
  cases hd : st.discovery with
  | none => rfl
  | some u =>
    by_cases hs : status = 200
    · subst hs
      cases parse with
      | fail => by_cases hx : discoveryUrlIsXml u <;> simp [hx, hc]
      | ok d => by_cases hx : discoveryUrlIsXml u <;> simp [hx, hco d]
    · simp [hs]

/-- C9 witness: a failed XML parse of a discovery response under default
options leaves a concrete client unchanged. -/
theorem C9_no_mutation_witness :
    (serviceDiscoveryRun c2State {} 200 ParseResult.fail).1.endpoint = c2State.endpoint ∧
    (serviceDiscoveryRun c2State {} 200 ParseResult.fail).1.format = c2State.format :=
  C9_no_mutation c2State {} 200 ParseResult.fail rfl

/-- C10: `submitRequest` mutates only the deep clone of the caller data:
the object the caller passed in is returned untouched, while the
transmitted form has the `attributes` key deleted and the injected
`api_key`. -/
theorem C10_caller_data_preserved (st : ClientState) (ep apiKey : String)
    (data : Obj) (he : st.endpoint = some ep) (hk : st.apiKey = some apiKey) :
    submitRequestPrepare st data = Except.ok (submitEffect apiKey data) ∧
    (submitEffect apiKey data).callerData = data ∧
    objGet (submitEffect apiKey data).form "attributes" = none ∧
    objGet (submitEffect apiKey data).form "api_key" = some (JVal.str apiKey) := by
  refine ⟨by simp [submitRequestPrepare, he, hk], rfl, ?_, ?_⟩
  · exact objGet_objDelete_self _ _
  · show objGet (objDelete (flattenAttributes
        (objSet (lodashCloneDeep data) "api_key" (JVal.str apiKey))) "attributes")
        "api_key" = some (JVal.str apiKey)
    rw [objGet_objDelete_ne _ _ _ (by decide),
      objGet_flattenAttributes _ _ (by decide),
      objGet_objSet_self]

/-- A fully configured client for the submission witness. -/
def c10State : ClientState :=
  Open311.make { endpoint := some "http://api.city.gov/v2/", apiKey := some "SECRET" }

/-- A concrete submission payload with a nested attributes map. -/
def c10Data : Obj :=
  [("service_code", JVal.str "001"),
   ("attributes", JVal.obj [("WIDTH", JVal.str "5")])]

/-- C10 witness: the preserved-caller-data statement at a concrete client
and payload. -/
theorem C10_caller_data_preserved_witness :
    submitRequestPrepare c10State c10Data = Except.ok (submitEffect "SECRET" c10Data) ∧
    (submitEffect "SECRET" c10Data).callerData = c10Data ∧
    objGet (submitEffect "SECRET" c10Data).form "attributes" = none ∧
    objGet (submitEffect "SECRET" c10Data).form "api_key" = some (JVal.str "SECRET") :=
  C10_caller_data_preserved c10State "http://api.city.gov/v2/" "SECRET" c10Data rfl rfl
